import Mathlib

/-
Verification development for the NATS GitHub controller
(cmd/nats-controller/main.go).  The Go program is embedded shallowly:
pure routing and configuration logic becomes Lean functions, broker
side effects (ack, nak, publish) become explicit values recording which
calls the code makes, and handler panics become an explicit outcome
constructor.  Definitions are translated from the Go source; the few
definitions that follow the prose specification instead (for comparing
code against spec) say so in their doc comments.
-/

namespace NatsController

/-- Embeds matchSubject (main.go): the function returns the plain string
equality of subject and pattern; the source comment notes it is a simple
implementation rather than NATS wildcard matching. -/
def matchSubject (pattern subject : String) : Bool :=
  subject == pattern

/-- Modelled from the spec: split a string into dot-delimited tokens
(auxiliary recursion over the character list, accumulating the current
token in reverse). -/
def splitTokensAux : List Char → List Char → List String
  | [], acc => [String.mk acc.reverse]
  | c :: cs, acc =>
    if c = '.' then String.mk acc.reverse :: splitTokensAux cs []
    else splitTokensAux cs (c :: acc)

/-- Modelled from the spec: dot-delimited tokenisation of a subject or
pattern string. -/
def splitTokens (s : String) : List String :=
  splitTokensAux s.data []

/-- Modelled from the spec: token-level matching, where a pattern token *
matches exactly one subject token, a trailing pattern token > matches one
or more remaining tokens, and any other token must match literally. -/
def specMatchTokens : List String → List String → Bool
  | [], [] => true
  | [], _ :: _ => false
  | _ :: _, [] => false
  | p :: ps, s :: ss =>
    if p = ">" ∧ ps = [] then true
    else if p = "*" then specMatchTokens ps ss
    else if p = s then specMatchTokens ps ss
    else false

/-- Modelled from the spec: the subject-matching algorithm the spec
describes for the Event Router, for comparison with the matchSubject
of the code. -/
def specMatchSubject (pattern subject : String) : Bool :=
  specMatchTokens (splitTokens pattern) (splitTokens subject)

/-- JSON-like values carried in the data field of a GitHubEvent
(map of string to interface in the Go source). -/
inductive JsonVal where
  | str : String → JsonVal
  | arr : List JsonVal → JsonVal
  | num : Int → JsonVal
  | boolean : Bool → JsonVal
  | null : JsonVal

/-- Embeds the GitHubEvent struct: timestamp, org, repo, event type and
a data map (modelled as an association list). -/
structure GitHubEvent where
  timestamp : String
  org : String
  repo : String
  eventType : String
  data : List (String × JsonVal)

/-- Embeds Go map indexing on the data map: the value for the key when
present, none otherwise (Go yields a nil interface for a missing key). -/
def lookupData (data : List (String × JsonVal)) (k : String) : Option JsonVal :=
  (data.find? (fun p => p.1 == k)).map Prod.snd

/-- True when the data map has key k with a string value: exactly the
condition under which the Go type assertion .(string) on that entry
succeeds instead of panicking. -/
def hasStringKey (data : List (String × JsonVal)) (k : String) : Bool :=
  match lookupData data k with
  | some (JsonVal.str _) => true
  | _ => false

/-- A delivered message as the handlers see it: its subject, and its
payload given by the result json.Unmarshal would produce (none models a
payload that does not deserialise into a GitHubEvent). -/
structure Msg where
  subject : String
  payload : Option GitHubEvent

/-- Outcome of running a handler body: a normal return (possibly after a
logged early return), or a runtime panic that crashes the process. -/
inductive HandlerResult where
  | normal : HandlerResult
  | panics : HandlerResult
deriving DecidableEq

/-- A registered handler, as in the subjects map of the Controller. -/
abbrev Handler := Msg → HandlerResult

/-- Embeds handleTemplateChange: unmarshal failure logs and returns; a
missing or non-array files entry logs and returns; otherwise the handler
publishes a regeneration request and returns.  Every path returns
normally; the publish side effect is modelled separately by
publishEventMsg. -/
def handleTemplateChange : Handler := fun msg =>
  match msg.payload with
  | none => HandlerResult.normal
  | some event =>
    match lookupData event.data "files" with
    | some (JsonVal.arr _) => HandlerResult.normal
    | _ => HandlerResult.normal

/-- Embeds handleWorkflowStatus: unmarshal failure logs and returns;
otherwise the Go code runs the unchecked type assertions
event.Data[workflow].(string) and event.Data[status].(string), which
panic unless the entry exists and holds a string; with both strings
present the handler logs by status and returns. -/
def handleWorkflowStatus : Handler := fun msg =>
  match msg.payload with
  | none => HandlerResult.normal
  | some event =>
    match lookupData event.data "workflow" with
    | some (JsonVal.str _) =>
      match lookupData event.data "status" with
      | some (JsonVal.str _) => HandlerResult.normal
      | _ => HandlerResult.panics
    | _ => HandlerResult.panics

/-- Embeds handleRegenerationRequest: unmarshal failure logs and
returns; otherwise the handler logs and returns. -/
def handleRegenerationRequest : Handler := fun msg =>
  match msg.payload with
  | none => HandlerResult.normal
  | some _ => HandlerResult.normal

/-- Embeds setupHandlers: the subjects map binds the three literal
subjects built with fmt.Sprintf from the org name.  The Go map is
modelled as an association list; Go map iteration order is unspecified,
which the dispatch determinism theorem addresses via permutations. -/
def setupHandlers (org : String) : List (String × Handler) :=
  [("github." ++ org ++ ".template_changed", handleTemplateChange),
   ("github." ++ org ++ ".workflow_status", handleWorkflowStatus),
   ("github." ++ org ++ ".regeneration_requested", handleRegenerationRequest)]

/-- Calls a consumer-loop iteration can make on the broker for a
message: jetstream offers both Ack and Nak, so both appear here; which
of them processMessage actually emits is what the theorems settle. -/
inductive BrokerCall where
  | ack : BrokerCall
  | nak : BrokerCall
deriving DecidableEq

/-- Result of one processMessage call: the broker calls it made in
order, whether the function returned (false means a handler panic
escaped, crashing the process before any ack), and whether the
no-handler branch logged the subject. -/
structure ProcResult where
  calls : List BrokerCall
  returned : Bool
  loggedNoHandler : Bool
deriving DecidableEq

/-- Embeds the range-and-match loop of processMessage: the first binding
whose pattern matches the subject, if any. -/
def dispatch : List (String × Handler) → String → Option (String × Handler)
  | [], _ => none
  | b :: rest, subject =>
    if matchSubject b.1 subject then some b else dispatch rest subject

/-- Embeds processMessage: route by dispatch; on a match run the handler
on a message carrying the subject and data, then Ack and return (a
handler panic propagates, so no ack happens); with no match, log the
subject and Ack to prevent redelivery. -/
def processMessage (bindings : List (String × Handler)) (msg : Msg) : ProcResult :=
  match dispatch bindings msg.subject with
  | some b =>
    match b.2 msg with
    | HandlerResult.normal => ProcResult.mk [BrokerCall.ack] true false
    | HandlerResult.panics => ProcResult.mk [] false false
  | none => ProcResult.mk [BrokerCall.ack] true true

/-- Embeds the NATSConfig struct, restricted to the fields the claims
touch.  Field order: urls, credsFile, nkeyFile, jwt, nkeySeed,
tlsEnabled, maxReconnect, reconnectWait (seconds), timeout (seconds),
deploymentType. -/
structure NATSConfig where
  urls : List String
  credsFile : String
  nkeyFile : String
  jwt : String
  nkeySeed : String
  tlsEnabled : Bool
  maxReconnect : Int
  reconnectWait : Nat
  timeout : Nat
  deploymentType : String
deriving DecidableEq

/-- Embeds the defaults loadNATSConfig installs before reading the
environment: localhost url, infinite reconnects (-1), 2 second reconnect
wait, 10 second timeout, self_hosted deployment.  With no environment
variables set this is exactly the configuration the program runs with. -/
def defaultNATSConfig : NATSConfig :=
  NATSConfig.mk ["nats://localhost:4222"] "" "" "" "" false (-1) 2 10 "self_hosted"

/-- The authentication options NewController can append, mirroring the
nats.Option constructors used in the source. -/
inductive AuthOpt where
  | userCredentials : String → AuthOpt
  | userJWTAndSeed : String → String → AuthOpt
deriving DecidableEq

/-- Embeds configureSynadiaAuth: credentials file first, else a
(JWT, nkey seed) pair, else an nkey file, else no auth option at all. -/
def configureSynadiaAuth (config : NATSConfig) : List AuthOpt :=
  if config.credsFile ≠ "" then
    [AuthOpt.userCredentials config.credsFile]
  else if config.jwt ≠ "" ∧ config.nkeySeed ≠ "" then
    [AuthOpt.userJWTAndSeed config.jwt config.nkeySeed]
  else if config.nkeyFile ≠ "" then
    [AuthOpt.userCredentials config.nkeyFile]
  else
    []

/-- Embeds configureSelfHostedAuth: credentials file first, else an
nkey file, else no auth option. -/
def configureSelfHostedAuth (config : NATSConfig) : List AuthOpt :=
  if config.credsFile ≠ "" then
    [AuthOpt.userCredentials config.credsFile]
  else if config.nkeyFile ≠ "" then
    [AuthOpt.userCredentials config.nkeyFile]
  else
    []

/-- Embeds the deployment-type switch of NewController that assembles
the auth options: synadia_cloud uses the Synadia path, the self_hosted
variants the self-hosted path, hybrid both, and any other value none. -/
def authOptions (config : NATSConfig) : List AuthOpt :=
  match config.deploymentType with
  | "synadia_cloud" => configureSynadiaAuth config
  | "self_hosted" => configureSelfHostedAuth config
  | "self_hosted_single" => configureSelfHostedAuth config
  | "self_hosted_cluster" => configureSelfHostedAuth config
  | "hybrid" => configureSynadiaAuth config ++ configureSelfHostedAuth config
  | _ => []

/-- What NewController does before reaching nats.Connect: either an
early error return, or a connect attempt with some list of auth
options.  The fatalConfigError constructor exists so that the claim
about missing-credential validation is expressible; whether the code
ever produces it is settled by the theorems. -/
inductive SetupStep where
  | fatalConfigError : String → SetupStep
  | fatalTLSError : SetupStep
  | attemptConnect : List AuthOpt → SetupStep
deriving DecidableEq

/-- Embeds NewController up to the nats.Connect call: the only early
error return is a failed TLS key-pair load (modelled by the
tlsLoadFails flag, relevant only when TLS is enabled); no credential
validation occurs, and the assembled auth options go straight into the
connect attempt. -/
def newControllerSetup (config : NATSConfig) (tlsLoadFails : Bool) : SetupStep :=
  if config.tlsEnabled && tlsLoadFails then SetupStep.fatalTLSError
  else SetupStep.attemptConnect (authOptions config)

/-- Embeds the base connection options NewController passes to
nats.Connect: client name, MaxReconnects, ReconnectWait and Timeout,
taken verbatim from the configuration. -/
structure ConnOpts where
  name : String
  maxReconnects : Int
  reconnectWaitSeconds : Nat
  timeoutSeconds : Nat
deriving DecidableEq

/-- Embeds the opts slice of NewController (the scalar options). -/
def connOpts (org : String) (config : NATSConfig) : ConnOpts :=
  ConnOpts.mk ("github-controller-" ++ org) config.maxReconnect
    config.reconnectWait config.timeout

/-- The wait configured before reconnect attempt n: NewController sets
the flat nats.ReconnectWait option and no custom reconnect delay, so
the configured base wait is the same constant for every attempt (the
nats client adds only bounded random jitter on top of this base). -/
def reconnectWaitFor (config : NATSConfig) (attempt : Nat) : Nat :=
  config.reconnectWait

/-- A published message as publishEvent hands it to the broker: the
computed subject and the Nats-Msg-Id idempotency header.  publishEvent
calls plain nc.Publish(subject, data), which sets no headers, so the
idempotency key is always none. -/
structure PubMsg where
  subject : String
  msgId : Option String
deriving DecidableEq

/-- Embeds publishEvent: subject github.org.eventType from the event
fields, and no idempotency header. -/
def publishEventMsg (event : GitHubEvent) : PubMsg :=
  PubMsg.mk ("github." ++ event.org ++ "." ++ event.eventType) none

/-- Modelled from the spec: the broker dedup window, which rejects a
second publish carrying the same idempotency key and accepts everything
else; the state is the list of keys seen inside the window. -/
def dedupPublish (seen : List String) (m : PubMsg) : Bool × List String :=
  match m.msgId with
  | none => (true, seen)
  | some k => if seen.contains k then (false, seen) else (true, k :: seen)

/-- Runs a sequence of publishes through the dedup window, returning
the per-publish success flags. -/
def runPublishes (seen : List String) : List PubMsg → List Bool
  | [] => []
  | m :: ms =>
    let r := dedupPublish seen m
    r.1 :: runPublishes r.2 ms

/-- Outcome of the NewController connect attempt during startup. -/
inductive ConnectOutcome where
  | connected : ConnectOutcome
  | connectError : ConnectOutcome
deriving DecidableEq

/-- What the process does after the startup connect attempt. -/
inductive BootResult where
  | running : BootResult
  | fatalExit : BootResult
deriving DecidableEq

/-- Embeds the startup path of main around NewController: a connect
error reaches log.Fatalf, which exits the process non-zero; success
starts the controller loop.  main never reads any prior state record,
so the second argument (presence of such a record) is ignored by the
code. -/
def mainBoot (connect : ConnectOutcome) (priorStatePresent : Bool) : BootResult :=
  match connect with
  | ConnectOutcome.connected => BootResult.running
  | ConnectOutcome.connectError => BootResult.fatalExit

/-- The bootstrap stages named by the spec. -/
inductive BootstrapStage where
  | coldStart : BootstrapStage
  | terraformRecovery : BootstrapStage
  | steadyState : BootstrapStage
deriving DecidableEq

/-- Modelled from the spec: the stage computation of the Bootstrap
State Machine (connect success gives steady_state; failure gives
cold_start without a prior state record and terraform_recovery with
one), for comparison with what main actually does. -/
def specBootstrapStage (connect : ConnectOutcome) (priorStatePresent : Bool) : BootstrapStage :=
  match connect with
  | ConnectOutcome.connected => BootstrapStage.steadyState
  | ConnectOutcome.connectError =>
    if priorStatePresent then BootstrapStage.terraformRecovery
    else BootstrapStage.coldStart

/-- A concrete workflow_status event whose workflow failed, as the
demo would deliver it. -/
def failedWorkflowEvent : GitHubEvent :=
  GitHubEvent.mk "2025-09-30T00:00:00Z" "joeblew999" "demo-repo" "workflow_status"
    [("workflow", JsonVal.str "ci"), ("status", JsonVal.str "failed")]

/-- The failed-workflow event as a delivered message. -/
def failedWorkflowMsg : Msg :=
  Msg.mk "github.joeblew999.workflow_status" (some failedWorkflowEvent)

/-- A concrete lock-attempt event for the (org, reason) pair
(acme, renovate). -/
def lockAttemptEvent : GitHubEvent :=
  GitHubEvent.mk "2025-09-30T00:00:00Z" "acme" "infra" "lock_renovate" []

/-- A synadia_cloud configuration with no credentials file, no JWT, no
nkey seed and no nkey file. -/
def synadiaNoCredsConfig : NATSConfig :=
  NATSConfig.mk ["connect.ngs.global"] "" "" "" "" false (-1) 2 10 "synadia_cloud"

/-
Helper lemmas shared by the claim theorems.
-/

/-- Appending different suffixes to the same front string yields
different strings. -/
theorem append_ne_of_ne (pre a b : String) (h : a ≠ b) : pre ++ a ≠ pre ++ b := by
  intro he
  apply h
  apply String.ext
  have hd := congrArg String.data he
  rw [String.data_append, String.data_append] at hd
  exact List.append_cancel_left hd

/-- When no binding pattern matches the subject, dispatch finds
nothing. -/
theorem dispatch_eq_none (l : List (String × Handler)) (s : String) :
    (∀ b ∈ l, matchSubject b.1 s = false) → dispatch l s = none := by
  induction l with
  | nil => intro _; rfl
  | cons b rest ih =>
    intro h
    simp only [dispatch, h b (List.mem_cons_self b rest), Bool.false_eq_true, if_false]
    exact ih (fun x hx => h x (List.mem_cons_of_mem b hx))

/-- With duplicate-free patterns, dispatch returns a binding exactly
when that binding is registered and its pattern equals the subject
(matchSubject being string equality). -/
theorem dispatch_eq_some_iff (l : List (String × Handler)) (s : String) (b : String × Handler) :
    (l.map Prod.fst).Nodup → (dispatch l s = some b ↔ b ∈ l ∧ b.1 = s) := by
  induction l with
  | nil =>
    intro _
    simp [dispatch]
  | cons hd rest ih =>
    intro nd
    rw [List.map_cons, List.nodup_cons] at nd
    by_cases hm : matchSubject hd.1 s = true
    · have hs : hd.1 = s := (beq_iff_eq.mp hm).symm
      simp only [dispatch, hm, if_true]
      constructor
      · intro hsome
        have hbe : hd = b := Option.some.inj hsome
        exact ⟨hbe ▸ List.mem_cons_self hd rest, hbe ▸ hs⟩
      · rintro ⟨hmem, hbs⟩
        rcases List.mem_cons.mp hmem with hbe | hbr
        · rw [hbe]
        · exfalso
          apply nd.1
          rw [hs, ← hbs]
          exact List.mem_map_of_mem Prod.fst hbr
    · have hm' : matchSubject hd.1 s = false := Bool.not_eq_true _ ▸ eq_false_of_ne_true hm
      have hns : hd.1 ≠ s := fun he => hm (by simp [matchSubject, he])
      simp only [dispatch, hm', Bool.false_eq_true, if_false]
      rw [ih nd.2]
      constructor
      · rintro ⟨hmem, hbs⟩
        exact ⟨List.mem_cons_of_mem hd hmem, hbs⟩
      · rintro ⟨hmem, hbs⟩
        rcases List.mem_cons.mp hmem with hbe | hbr
        · exact absurd (hbe ▸ hbs) hns
        · exact ⟨hbr, hbs⟩

/-- The broker calls processMessage makes: never a Nak, and exactly one
Ack whenever the call returns. -/
theorem processMessage_calls (bindings : List (String × Handler)) (msg : Msg) :
    BrokerCall.nak ∉ (processMessage bindings msg).calls ∧
    ((processMessage bindings msg).returned = true →
      (processMessage bindings msg).calls = [BrokerCall.ack]) := by
  cases h : dispatch bindings msg.subject with
  | none => exact ⟨by simp [processMessage, h], fun _ => by simp [processMessage, h]⟩
  | some b =>
    cases hb : b.2 msg with
    | normal => exact ⟨by simp [processMessage, h, hb], fun _ => by simp [processMessage, h, hb]⟩
    | panics =>
      refine ⟨by simp [processMessage, h, hb], fun hr => ?_⟩
      rw [processMessage, h] at hr
      simp [hb] at hr

/-- handleWorkflowStatus on a deserialised event reduces to the
string-field check: it returns normally exactly when both the workflow
and the status entries are strings, and panics otherwise. -/
theorem handleWorkflowStatus_eq (s : String) (event : GitHubEvent) :
    handleWorkflowStatus (Msg.mk s (some event)) =
      (if hasStringKey event.data "workflow" && hasStringKey event.data "status"
        then HandlerResult.normal else HandlerResult.panics) := by
  have hred : handleWorkflowStatus (Msg.mk s (some event)) =
      (match lookupData event.data "workflow" with
        | some (JsonVal.str _) =>
          (match lookupData event.data "status" with
            | some (JsonVal.str _) => HandlerResult.normal
            | _ => HandlerResult.panics)
        | _ => HandlerResult.panics) := rfl
  rw [hred]
  unfold hasStringKey
  cases hlw : lookupData event.data "workflow" with
  | none => rfl
  | some v =>
    cases v with
    | str t =>
      cases hls : lookupData event.data "status" with
      | none => rfl
      | some w => cases w <;> rfl
    | arr a => rfl
    | num n => rfl
    | boolean b => rfl
    | null => rfl

/-
Claim theorems.
-/

/-- C1 counterexample: the claim describes token-based wildcard matching
and asserts that the subject change.acme.template_changed matches the
patterns change.*.template_changed and change.acme.> — but matchSubject
in the code is plain string equality and returns false on both, while
the spec algorithm (specMatchSubject) indeed returns true on both. -/
theorem matchSubject_wildcard_cx :
    matchSubject "change.*.template_changed" "change.acme.template_changed" = false ∧
    specMatchSubject "change.*.template_changed" "change.acme.template_changed" = true ∧
    matchSubject "change.acme.>" "change.acme.template_changed" = false ∧
    specMatchSubject "change.acme.>" "change.acme.template_changed" = true := by
  decide

/-- C1 (amended): matchSubject is literal string equality; it returns
true exactly when subject and pattern are identical, so the literal
pattern matches and both wildcard patterns of the claim do not, and the
two non-matching subjects of the claim still do not match. -/
theorem matchSubject_literal_equality :
    (∀ pattern subject, matchSubject pattern subject = true ↔ subject = pattern) ∧
    matchSubject "change.acme.template_changed" "change.acme.template_changed" = true ∧
    matchSubject "change.*.template_changed" "change.acme.template_changed" = false ∧
    matchSubject "change.acme.>" "change.acme.template_changed" = false ∧
    matchSubject "change.*.template_changed" "change.acme.workflow_status" = false ∧
    matchSubject "change.*.template_changed" "change.acme.template_changed.extra" = false := by
  refine ⟨fun p s => ?_, by decide, by decide, by decide, by decide, by decide⟩
  simp [matchSubject]

/-- C1 witness: the equality characterisation instantiated at a
concrete pattern and subject. -/
theorem matchSubject_literal_equality_witness :
    matchSubject "github.acme.workflow_status" "github.acme.workflow_status" = true :=
  (matchSubject_literal_equality.1 "github.acme.workflow_status"
    "github.acme.workflow_status").mpr rfl

/-- C2 counterexample: a workflow_status message reporting a failed
workflow — the situation the claimed outcome mapping calls a retryable
failure — is handled by a handler that can only return normally (the
nats message handler signature returns nothing), and the loop
acknowledges it; no negative acknowledgement with backoff occurs. -/
theorem processMessage_retryable_acked_cx :
    handleWorkflowStatus failedWorkflowMsg = HandlerResult.normal ∧
    processMessage (setupHandlers "joeblew999") failedWorkflowMsg =
      ProcResult.mk [BrokerCall.ack] true false := by
  decide

/-- C2 (amended): the consumer loop applies no outcome mapping at all:
handlers report no outcome to the loop, every message whose processing
returns is acknowledged exactly once, and the loop never issues a
negative acknowledgement — there is no backoff hint, no maximum
delivery count and no dead-letter record. -/
theorem processMessage_no_outcome_mapping :
    ∀ (org : String) (msg : Msg),
      BrokerCall.nak ∉ (processMessage (setupHandlers org) msg).calls ∧
      ((processMessage (setupHandlers org) msg).returned = true →
        (processMessage (setupHandlers org) msg).calls = [BrokerCall.ack]) := by
  intro org msg
  exact processMessage_calls (setupHandlers org) msg

/-- C2 witness: the amended theorem at a concrete org and message. -/
theorem processMessage_no_outcome_mapping_witness :
    (processMessage (setupHandlers "acme") (Msg.mk "unroutable" none)).calls =
      [BrokerCall.ack] :=
  (processMessage_no_outcome_mapping "acme" (Msg.mk "unroutable" none)).2 (by decide)

/-- C3 counterexample: publishEvent attaches no idempotency key (plain
nc.Publish sets no Nats-Msg-Id header), so two publishes for the same
(org, reason) pair both succeed through the dedup window instead of the
claimed one success and one duplicate-rejection. -/
theorem publishEvent_no_idempotency_cx :
    (publishEventMsg lockAttemptEvent).msgId = none ∧
    runPublishes [] [publishEventMsg lockAttemptEvent, publishEventMsg lockAttemptEvent] =
      [true, true] := by
  decide

/-- C3 (amended): publishEvent publishes to subject
github.org.eventType with no idempotency key, so any number of
publishes for the same (org, reason) pair all succeed and no
duplicate-rejection ever occurs; the code enforces no at-most-one
in-flight lock. -/
theorem publishEvent_all_publishes_succeed :
    ∀ (event : GitHubEvent) (n : Nat) (seen : List String),
      (publishEventMsg event).msgId = none ∧
      (publishEventMsg event).subject = "github." ++ event.org ++ "." ++ event.eventType ∧
      runPublishes seen (List.replicate n (publishEventMsg event)) = List.replicate n true := by
  intro event n seen
  refine ⟨rfl, rfl, ?_⟩
  induction n generalizing seen with
  | zero => rfl
  | succ k ih =>
    simp only [List.replicate_succ, runPublishes, dedupPublish, publishEventMsg]
    exact congrArg (List.cons true) (ih seen)

/-- C4 counterexample: with the broker unreachable and no prior state
record, main reaches log.Fatalf and the process exits — it computes no
cold_start stage — and with a prior state record present it exits just
the same instead of entering terraform_recovery; the spec stage
function shows what the claim expected at those inputs. -/
theorem mainBoot_connect_failure_crash_cx :
    mainBoot ConnectOutcome.connectError false = BootResult.fatalExit ∧
    specBootstrapStage ConnectOutcome.connectError false = BootstrapStage.coldStart ∧
    mainBoot ConnectOutcome.connectError true = BootResult.fatalExit ∧
    specBootstrapStage ConnectOutcome.connectError true = BootstrapStage.terraformRecovery := by
  decide

/-- C4 (amended): main performs no bootstrap stage computation: a
successful connect starts the controller loop (the only steady
behaviour), a failed connect makes the process exit fatally whatever
prior state exists, and the boot outcome never depends on the presence
of a prior state record, which main never reads. -/
theorem mainBoot_no_stage_machine :
    (∀ prior, mainBoot ConnectOutcome.connected prior = BootResult.running) ∧
    (∀ prior, mainBoot ConnectOutcome.connectError prior = BootResult.fatalExit) ∧
    (∀ connect p₁ p₂, mainBoot connect p₁ = mainBoot connect p₂) := by
  refine ⟨fun _ => rfl, fun _ => rfl, fun connect p₁ p₂ => ?_⟩
  cases connect <;> rfl

/-- C5 counterexample: a synadia_cloud configuration with no
credentials file, no (JWT, seed) pair and no nkey file produces no auth
options, and NewController proceeds to the connect attempt instead of
returning the claimed fatal configuration error. -/
theorem synadia_missing_creds_cx :
    newControllerSetup synadiaNoCredsConfig false = SetupStep.attemptConnect [] ∧
    configureSynadiaAuth synadiaNoCredsConfig = [] ∧
    newControllerSetup synadiaNoCredsConfig false ≠ SetupStep.fatalConfigError "credentials" := by
  decide

/-- C5 (amended): when the deployment type is synadia_cloud (the
managed-cloud type of the spec) and the configuration carries neither a
credentials file, nor a complete (JWT, nkey seed) pair, nor an nkey
file, configureSynadiaAuth yields no auth option and NewController
proceeds to attempt the connection unauthenticated; no configuration
error is raised before the connect. -/
theorem synadia_missing_creds_connects_unauthenticated :
    ∀ (config : NATSConfig),
      config.deploymentType = "synadia_cloud" →
      config.credsFile = "" →
      config.nkeyFile = "" →
      (config.jwt = "" ∨ config.nkeySeed = "") →
      configureSynadiaAuth config = [] ∧
      newControllerSetup config false = SetupStep.attemptConnect [] := by
  intro config hd hc hn hjs
  have hauth : configureSynadiaAuth config = [] := by
    rcases hjs with h | h <;> simp [configureSynadiaAuth, hc, hn, h]
  refine ⟨hauth, ?_⟩
  unfold newControllerSetup authOptions
  rw [hd]
  simp [hauth]

/-- C5 witness: the amended theorem at the concrete credential-free
synadia_cloud configuration. -/
theorem synadia_missing_creds_connects_unauthenticated_witness :
    configureSynadiaAuth synadiaNoCredsConfig = [] ∧
    newControllerSetup synadiaNoCredsConfig false = SetupStep.attemptConnect [] :=
  synadia_missing_creds_connects_unauthenticated synadiaNoCredsConfig rfl rfl rfl (Or.inl rfl)

/-- C6: a delivered message whose subject matches no registered binding
is logged and acknowledged — never negatively acknowledged, so never
scheduled for redelivery. -/
theorem processMessage_unmatched_logged_acked :
    ∀ (bindings : List (String × Handler)) (msg : Msg),
      (∀ b ∈ bindings, matchSubject b.1 msg.subject = false) →
      processMessage bindings msg = ProcResult.mk [BrokerCall.ack] true true := by
  intro bindings msg h
  simp [processMessage, dispatch_eq_none bindings msg.subject h]

/-- C6 witness: the unmatched-subject theorem at a concrete message
with no registered bindings. -/
theorem processMessage_unmatched_logged_acked_witness :
    processMessage [] (Msg.mk "github.acme.unknown_event" none) =
      ProcResult.mk [BrokerCall.ack] true true :=
  processMessage_unmatched_logged_acked [] (Msg.mk "github.acme.unknown_event" none)
    (by simp)

/-- C7 counterexample: the wait configured before reconnect attempts is
the flat ReconnectWait value — the wait before attempt 2 equals the
wait before attempt 1 and does not grow, contradicting exponential
backoff. -/
theorem reconnectWait_constant_cx :
    reconnectWaitFor defaultNATSConfig 2 = reconnectWaitFor defaultNATSConfig 1 ∧
    ¬ reconnectWaitFor defaultNATSConfig 1 < reconnectWaitFor defaultNATSConfig 2 := by
  decide

/-- C7 (amended): reconnection uses a fixed configured wait between
attempts (2 seconds by default, identical for every attempt, not
exponential); the retry count defaults to unbounded (MaxReconnect -1)
and a ceiling is configurable, NewController passing the configured
MaxReconnect straight into the connection options. -/
theorem reconnect_fixed_wait_unbounded_default :
    (∀ config a b, reconnectWaitFor config a = reconnectWaitFor config b) ∧
    defaultNATSConfig.maxReconnect = -1 ∧
    defaultNATSConfig.reconnectWait = 2 ∧
    (∀ org config, (connOpts org config).maxReconnects = config.maxReconnect) ∧
    (∀ org config, (connOpts org config).reconnectWaitSeconds = config.reconnectWait) :=
  ⟨fun _ _ _ => rfl, rfl, rfl, fun _ _ => rfl, fun _ _ => rfl⟩

/-- C8: dispatch is deterministic: for duplicate-free bindings, any
permutation of the registration list — covering both registration order
and the unspecified Go map iteration order — routes every message to
the same binding and produces the same processing result. -/
theorem dispatch_deterministic :
    ∀ (l₁ l₂ : List (String × Handler)) (msg : Msg),
      l₁.Perm l₂ → (l₁.map Prod.fst).Nodup →
      dispatch l₁ msg.subject = dispatch l₂ msg.subject ∧
      processMessage l₁ msg = processMessage l₂ msg := by
  intro l₁ l₂ msg hperm hnd
  have hnd₂ : (l₂.map Prod.fst).Nodup := ((hperm.map Prod.fst).nodup_iff).mp hnd
  have hdisp : dispatch l₁ msg.subject = dispatch l₂ msg.subject := by
    cases h1 : dispatch l₁ msg.subject with
    | some b =>
      have hb := (dispatch_eq_some_iff l₁ msg.subject b hnd).mp h1
      exact ((dispatch_eq_some_iff l₂ msg.subject b hnd₂).mpr
        ⟨hperm.mem_iff.mp hb.1, hb.2⟩).symm
    | none =>
      cases h2 : dispatch l₂ msg.subject with
      | none => rfl
      | some b =>
        have hb := (dispatch_eq_some_iff l₂ msg.subject b hnd₂).mp h2
        have hcontra := (dispatch_eq_some_iff l₁ msg.subject b hnd).mpr
          ⟨hperm.mem_iff.mpr hb.1, hb.2⟩
        rw [h1] at hcontra
        exact absurd hcontra (by simp)
  exact ⟨hdisp, by simp [processMessage, hdisp]⟩

/-- C8 witness: the determinism theorem at two concrete two-binding
lists that are permutations of each other. -/
theorem dispatch_deterministic_witness :
    dispatch [("github.acme.template_changed", handleTemplateChange),
        ("github.acme.workflow_status", handleWorkflowStatus)]
      "github.acme.workflow_status" =
    dispatch [("github.acme.workflow_status", handleWorkflowStatus),
        ("github.acme.template_changed", handleTemplateChange)]
      "github.acme.workflow_status" :=
  (dispatch_deterministic
    [("github.acme.template_changed", handleTemplateChange),
      ("github.acme.workflow_status", handleWorkflowStatus)]
    [("github.acme.workflow_status", handleWorkflowStatus),
      ("github.acme.template_changed", handleTemplateChange)]
    (Msg.mk "github.acme.workflow_status" none)
    (List.Perm.swap _ _ _) (by decide)).1

/-- C9: every fetched message the loop routes is acknowledged exactly
once whenever processMessage returns — including when the handler fails
to parse the payload or returns after an internal error, since both are
normal returns — and no code path of the loop issues a negative
acknowledgement, so the loop itself never schedules a backoff
redelivery. -/
theorem processMessage_ack_exactly_once_no_nak :
    ∀ (bindings : List (String × Handler)) (msg : Msg),
      BrokerCall.nak ∉ (processMessage bindings msg).calls ∧
      ((processMessage bindings msg).returned = true →
        (processMessage bindings msg).calls = [BrokerCall.ack]) := by
  intro bindings msg
  exact processMessage_calls bindings msg

/-- C9 witness: the ack-exactly-once theorem at a concrete message. -/
theorem processMessage_ack_exactly_once_no_nak_witness :
    (processMessage [] (Msg.mk "github.acme.orphan_subject" none)).calls =
      [BrokerCall.ack] :=
  (processMessage_ack_exactly_once_no_nak [] (Msg.mk "github.acme.orphan_subject" none)).2
    (by decide)

/-- C10: a delivered workflow_status message whose envelope
deserialises but whose data map lacks a string-valued workflow or
status entry makes handleWorkflowStatus hit an unchecked type
assertion and panic, so the process crashes without acknowledging the
message instead of logging and acking; the branch is reachable from
the public message interface for every org. -/
theorem handleWorkflowStatus_panics_on_missing_fields :
    ∀ (org : String) (event : GitHubEvent),
      (hasStringKey event.data "workflow" = false ∨ hasStringKey event.data "status" = false) →
      handleWorkflowStatus
        (Msg.mk ("github." ++ org ++ ".workflow_status") (some event)) =
        HandlerResult.panics ∧
      processMessage (setupHandlers org)
        (Msg.mk ("github." ++ org ++ ".workflow_status") (some event)) =
        ProcResult.mk [] false false := by
  intro org event h
  have hpanic : handleWorkflowStatus
      (Msg.mk ("github." ++ org ++ ".workflow_status") (some event)) =
      HandlerResult.panics := by
    rw [handleWorkflowStatus_eq]
    rcases h with hw | hs
    · simp [hw]
    · simp [hs]
  have h1 : matchSubject ("github." ++ org ++ ".template_changed")
      ("github." ++ org ++ ".workflow_status") = false :=
    beq_eq_false_iff_ne.mpr
      (append_ne_of_ne ("github." ++ org) ".workflow_status" ".template_changed" (by decide))
  have h2 : matchSubject ("github." ++ org ++ ".workflow_status")
      ("github." ++ org ++ ".workflow_status") = true := by
    simp [matchSubject]
  have hdisp : dispatch (setupHandlers org) ("github." ++ org ++ ".workflow_status") =
      some ("github." ++ org ++ ".workflow_status", handleWorkflowStatus) := by
    simp [setupHandlers, dispatch, h1, h2]
  exact ⟨hpanic, by simp [processMessage, hdisp, hpanic]⟩

/-- C10 witness: a workflow_status event with an empty data map panics
the handler and crashes processMessage without an ack. -/
theorem handleWorkflowStatus_panics_on_missing_fields_witness :
    handleWorkflowStatus
      (Msg.mk ("github." ++ "acme" ++ ".workflow_status")
        (some (GitHubEvent.mk "t" "acme" "infra" "workflow_status" []))) =
      HandlerResult.panics ∧
    processMessage (setupHandlers "acme")
      (Msg.mk ("github." ++ "acme" ++ ".workflow_status")
        (some (GitHubEvent.mk "t" "acme" "infra" "workflow_status" []))) =
      ProcResult.mk [] false false :=
  handleWorkflowStatus_panics_on_missing_fields "acme"
    (GitHubEvent.mk "t" "acme" "infra" "workflow_status" []) (Or.inl rfl)

end NatsController
